import Mathlib

/-!
Verification development for the alkinson-newsletter repository.

The Python sources are shallowly embedded as executable Lean definitions:

* `shared/utils.py` week-identifier arithmetic, together with the parts of
  CPython's `datetime` library that it calls (`date.isocalendar`,
  `date.weekday`, ordinal arithmetic on the proleptic Gregorian calendar);
* `content_agent/lambda_function.py` cost-guard control flow;
* `content_agent/bedrock_summarizer.py` article-cap logic;
* `content_agent/content_gatherer.py` categorization;
* `content_agent/content_processor.py` week-id generation;
* `email_agent/email_sender.py` sending limits and batch accounting;
* `email_agent/subscriber_manager.py` subscriber filtering;
* `shared/aws_clients.py` subscriber-table operations.

Dates are modelled as `(year, month, day)` triples of integers and datetimes
as `(ordinal day, second of day)` pairs; machine sends and model calls are
modelled by oracle functions passed as parameters.
-/

namespace Alkinson

/-! ## Calendar arithmetic (CPython `datetime` internals used by `shared/utils.py`) -/

/-- Proleptic-Gregorian leap-year test:
`year % 4 == 0 and (year % 100 != 0 or year % 400 == 0)`. -/
def isLeapYear (y : Int) : Bool :=
  y % 4 == 0 && (y % 100 != 0 || y % 400 == 0)

/-- Number of days in year `y`. -/
def daysInYear (y : Int) : Int :=
  if isLeapYear y then 366 else 365

/-- Number of days in month `m` (1-based) of year `y`. -/
def daysInMonth (y m : Int) : Int :=
  if m = 2 then (if isLeapYear y then 29 else 28)
  else if m = 4 ∨ m = 6 ∨ m = 9 ∨ m = 11 then 30
  else 31

/-- Cumulative days before month `m` in a non-leap year
(CPython `_DAYS_BEFORE_MONTH` table). -/
def daysBeforeMonthBase (m : Int) : Int :=
  if m ≤ 1 then 0
  else if m = 2 then 31
  else if m = 3 then 59
  else if m = 4 then 90
  else if m = 5 then 120
  else if m = 6 then 151
  else if m = 7 then 181
  else if m = 8 then 212
  else if m = 9 then 243
  else if m = 10 then 273
  else if m = 11 then 304
  else 334

/-- CPython `_days_before_month(year, month)`. -/
def daysBeforeMonth (y m : Int) : Int :=
  daysBeforeMonthBase m + (if 2 < m ∧ isLeapYear y then 1 else 0)

/-- CPython `_days_before_year(year)`: days before January 1 of year `y`.
Lean's `/` on `Int` rounds toward negative infinity for positive divisors,
matching Python's `//`. -/
def daysBeforeYear (y : Int) : Int :=
  let z := y - 1
  z * 365 + z / 4 - z / 100 + z / 400

/-- CPython `_ymd2ord(year, month, day)`: proleptic-Gregorian ordinal,
with day 1 = 0001-01-01. -/
def ymd2ord (y m d : Int) : Int :=
  daysBeforeYear y + daysBeforeMonth y m + d

/-- A `(y, m, d)` triple that `datetime.date` would accept (month and day in
range; the year range 1..9999 is imposed separately where it matters). -/
def validDate (y m d : Int) : Prop :=
  1 ≤ m ∧ m ≤ 12 ∧ 1 ≤ d ∧ d ≤ daysInMonth y m

instance (y m d : Int) : Decidable (validDate y m d) := by
  unfold validDate
  infer_instance

/-- `datetime.date.weekday()` of the day with ordinal `n`: Monday = 0. -/
def ordWeekday (n : Int) : Int :=
  (n + 6) % 7

/-- CPython `_isoweek1monday(year)`: ordinal of the Monday starting ISO week 1
of `year`. -/
def isoweek1monday (y : Int) : Int :=
  let firstday := ymd2ord y 1 1
  let firstweekday := (firstday + 6) % 7
  let week1monday := firstday - firstweekday
  if firstweekday > 3 then week1monday + 7 else week1monday

/-- CPython `date.isocalendar()`, restricted to the `(ISO year, ISO week)`
components used by the repository. -/
def isocalendar (y m d : Int) : Int × Int :=
  let today := ymd2ord y m d
  let week := (today - isoweek1monday y) / 7
  if week < 0 then
    (y - 1, (today - isoweek1monday (y - 1)) / 7 + 1)
  else if week ≥ 52 ∧ today ≥ isoweek1monday (y + 1) then
    (y + 1, 1)
  else
    (y, week + 1)

/-! ## Decimal formatting (Python `str(int)` and `f"{n:02d}"`) -/

/-- The decimal digit character for `n < 10`. -/
def digitChar (n : Nat) : Char :=
  Char.ofNat (48 + n)

/-- Fuel-driven digit expansion; `fuel > n` always suffices because the
argument strictly decreases under division by 10. -/
def natDigitsFuel : Nat → Nat → List Char
  | 0, _ => []
  | fuel + 1, n =>
    if n < 10 then [digitChar n]
    else natDigitsFuel fuel (n / 10) ++ [digitChar (n % 10)]

/-- Decimal digit characters of a natural number, most significant first. -/
def natDigits (n : Nat) : List Char :=
  natDigitsFuel (n + 1) n

/-- Python `str(n)` for a natural number. -/
def natRepr (n : Nat) : String :=
  String.mk (natDigits n)

/-- Python `str(i)` for an integer. -/
def intRepr (i : Int) : String :=
  if i < 0 then "-" ++ natRepr (-i).toNat else natRepr i.toNat

/-- Python `f"{i:02d}"`: zero-pad to width 2 (the sign counts toward the
width, so only `0 ≤ i < 10` actually receives a pad character). -/
def pad2 (i : Int) : String :=
  if 0 ≤ i ∧ i < 10 then "0" ++ natRepr i.toNat else intRepr i

/-! ## `shared/utils.py` -/

/-- `shared/utils.get_week_id_for_date(date)`:
`year, week_num, _ = date.isocalendar(); return f"{year}-week-{week_num:02d}"`. -/
def get_week_id_for_date (y m d : Int) : String :=
  let p := isocalendar y m d
  intRepr p.1 ++ "-week-" ++ pad2 p.2

/-- Is `c` one of the characters `0`..`9`? -/
def isDigitChar (c : Char) : Bool :=
  48 ≤ c.toNat && c.toNat ≤ 57

/-- Numeric value of a digit character. -/
def digitVal (c : Char) : Nat :=
  c.toNat - 48

/-- Value of a most-significant-first digit string. -/
def digitsToNat (cs : List Char) : Nat :=
  cs.foldl (fun a c => 10 * a + digitVal c) 0

/-- Parse a nonempty all-digit character list. -/
def parseDigits (cs : List Char) : Option Nat :=
  if cs.isEmpty then none
  else if cs.all isDigitChar then some (digitsToNat cs) else none

/-- Python `int(s)` on a plain (unpadded) literal: optional sign followed by
one or more decimal digits; `none` models the `ValueError` raised otherwise. -/
def parsePyInt (s : String) : Option Int :=
  match s.toList with
  | '-' :: rest => (parseDigits rest).map (fun n => -(n : Int))
  | '+' :: rest => (parseDigits rest).map (fun n => (n : Int))
  | cs => (parseDigits cs).map (fun n => (n : Int))

/-- Python `s.split('-')` on a character list: split at every `-`, keeping
empty fields. -/
def splitDash : List Char → List (List Char)
  | [] => [[]]
  | c :: rest =>
    match splitDash rest with
    | [] => [[]]
    | g :: gs => if c = '-' then [] :: g :: gs else (c :: g) :: gs

/-- A datetime as `(proleptic-Gregorian ordinal, second of day)`. -/
abbrev DateTime := Int × Int

/-- Lexicographic order on datetimes. -/
def dtle (a b : DateTime) : Bool :=
  decide (a.1 < b.1 ∨ (a.1 = b.1 ∧ a.2 ≤ b.2))

/-- Is `d` inside the closed interval `[lo, hi]`? -/
def dtContains (lo hi d : DateTime) : Bool :=
  dtle lo d && dtle d hi

/-- `shared/utils.get_week_start_end(week_id)`.

Splits the id on `-`, requires three parts with `week` in the middle, parses
the year and week number with `int(...)`, builds `datetime(year, 1, 1)`
(which raises `ValueError`, here `none`, outside years 1..9999), advances to
the "first Monday" using `days_to_monday = (7 - jan_1.weekday()) % 7`, plus 7
more when `jan_1.weekday() > 3`, then returns
`(first_monday + weeks*(week_num-1), week_start + 6 days 23:59:59)`.
`none` models the `ValueError` raised on any malformed id. -/
def get_week_start_end (week_id : String) : Option (DateTime × DateTime) :=
  match (splitDash week_id.toList).map String.mk with
  | [p0, p1, p2] =>
    if p1 = "week" then
      match parsePyInt p0, parsePyInt p2 with
      | some year, some week_num =>
        if 1 ≤ year ∧ year ≤ 9999 then
          let jan1 := ymd2ord year 1 1
          let wd := ordWeekday jan1
          let days_to_monday := (7 - wd) % 7 + (if wd > 3 then 7 else 0)
          let first_monday := jan1 + days_to_monday
          let week_start := first_monday + 7 * (week_num - 1)
          some ((week_start, 0), (week_start + 6, 86399))
        else none
      | _, _ => none
    else none
  | _ => none

/-! ## `content_agent/content_processor.py` -/

/-- `ContentProcessor.generate_week_id(date=None)`: defaults to the current
UTC date (passed here explicitly as `now`), then
`year, week_num, _ = date.isocalendar(); return f"{year}-week-{week_num:02d}"`. -/
def ContentProcessor.generate_week_id (now : Int × Int × Int)
    (date : Option (Int × Int × Int)) : String :=
  let d := date.getD now
  let p := isocalendar d.1 d.2.1 d.2.2
  intRepr p.1 ++ "-week-" ++ pad2 p.2

/-- The regular expression `^\d{4}-week-\d{2}$` as a Boolean matcher: twelve
characters, of which the first four and the last two are decimal digits and
the middle six are the literal `-week-`. -/
def weekIdPattern (s : String) : Bool :=
  let cs := s.toList
  decide (cs.length = 12) && (cs.take 4).all isDigitChar &&
    decide ((cs.drop 4).take 6 = ['-', 'w', 'e', 'e', 'k', '-']) &&
    (cs.drop 10).all isDigitChar

/-! ## `content_agent/lambda_function.py` cost guard

The handler computes `cost_estimate = summarizer.estimate_cost(total_articles)`,
logs a warning when `total_cost_usd > 0.10`, and aborts with a 400 response
when `total_cost_usd > MAX_COST_THRESHOLD = 0.50` before the summarize and
store steps; otherwise it runs `summarize_articles` on both categories and
`process_and_store`, and returns a 200 response.  Dollar amounts are modelled
as rationals; the summarizer and processor calls are recorded as trace flags. -/

/-- The handler's `MAX_COST_THRESHOLD = 0.50`. -/
def MAX_COST_THRESHOLD : ℚ := 1 / 2

/-- The fields of the handler's response that the cost guard determines. -/
structure ContentAgentResponse where
  statusCode : Nat
  /-- `estimated_cost_usd` in a 400 body (the 200 body also echoes it). -/
  estimated_cost_usd : Option ℚ
  /-- `max_threshold_usd`, present only in the 400 body. -/
  max_threshold_usd : Option ℚ
  deriving DecidableEq, Repr

/-- Observable trace of one `lambda_handler` run from the cost estimate on. -/
structure ContentAgentTrace where
  response : ContentAgentResponse
  /-- Was the `HIGH COST ALERT` warning logged? -/
  highCostWarning : Bool
  /-- Was `summarizer.summarize_articles` invoked? -/
  summarizerCalled : Bool
  /-- Was `processor.process_and_store` invoked? -/
  processorCalled : Bool
  deriving DecidableEq, Repr

/-- `content_agent/lambda_function.lambda_handler` from the point where the
cost estimate is known: warning log, hard abort, or full run. -/
def lambda_handler_costGate (total_cost_usd : ℚ) : ContentAgentTrace :=
  let warned : Bool := decide (total_cost_usd > 1 / 10)
  if total_cost_usd > MAX_COST_THRESHOLD then
    { response := { statusCode := 400
                    estimated_cost_usd := some total_cost_usd
                    max_threshold_usd := some MAX_COST_THRESHOLD }
      highCostWarning := warned
      summarizerCalled := false
      processorCalled := false }
  else
    { response := { statusCode := 200
                    estimated_cost_usd := some total_cost_usd
                    max_threshold_usd := none }
      highCostWarning := warned
      summarizerCalled := true
      processorCalled := true }

/-! ## `email_agent/email_sender.py` -/

namespace EmailSender

/-- `EmailSender.SES_DAILY_LIMIT = 200`. -/
def SES_DAILY_LIMIT : Nat := 200

/-- `EmailSender.check_sending_limits(batch_size)`, with the instance counter
`self.emails_sent_today` passed explicitly. -/
def check_sending_limits (emails_sent_today batch_size : Nat) : Bool :=
  if emails_sent_today + batch_size > SES_DAILY_LIMIT then false else true

/-- Python `xs[:r]` for an arbitrary integer bound `r`: a negative bound
counts from the end of the list. -/
def pySliceTo {α : Type} (xs : List α) (r : Int) : List α :=
  if 0 ≤ r then xs.take r.toNat else xs.take (xs.length - (-r).toNat)

/-- Accumulated counters of one `send_batch` run:
`(emails_sent_today, successful, failed, skipped)`. -/
abbrev SendCounters := Nat × Nat × Nat × Nat

/-- The `for i, subscriber in enumerate(subscribers)` loop of
`EmailSender.send_batch`: before each send the daily counter is compared
against the limit, and on reaching it the rest of the batch is skipped
(`batch_results['skipped'] += len(subscribers) - i; break`).  `sendOk`
is the outcome of `send_single_email`, which increments the daily counter
only on success. -/
def send_batch_loop {α : Type} (sendOk : α → Bool) :
    List α → Nat → Nat → Nat → Nat → SendCounters
  | [], sent, s, f, sk => (sent, s, f, sk)
  | x :: rest, sent, s, f, sk =>
    if sent ≥ SES_DAILY_LIMIT then (sent, s, f, sk + (x :: rest).length)
    else if sendOk x then send_batch_loop sendOk rest (sent + 1) (s + 1) f sk
    else send_batch_loop sendOk rest sent s (f + 1) sk

/-- The counter fields of `send_batch`'s `batch_results` dictionary. -/
structure BatchResults where
  total : Nat
  successful : Nat
  failed : Nat
  skipped : Nat
  deriving DecidableEq, Repr

/-- `EmailSender.send_batch(weekly_summary, subscribers)`: pre-truncates the
batch to the remaining daily quota when `check_sending_limits` fails, marking
the cut-off subscribers skipped, then runs the send loop.  Returns the batch
results together with the final `emails_sent_today` counter. -/
def send_batch {α : Type} (sendOk : α → Bool) (emails_sent_today : Nat)
    (subscribers : List α) : BatchResults × Nat :=
  let total := subscribers.length
  let step :=
    if check_sending_limits emails_sent_today total then (subscribers, 0)
    else
      let remaining : Int := (SES_DAILY_LIMIT : Int) - emails_sent_today
      let subs := pySliceTo subscribers remaining
      (subs, total - subs.length)
  let r := send_batch_loop sendOk step.1 emails_sent_today 0 0 0
  ({ total := total
     successful := r.2.1
     failed := r.2.2.1
     skipped := step.2 + r.2.2.2 }, r.1)

end EmailSender

/-! ## `shared/models.py` and `shared/aws_clients.py` -/

/-- `shared/models.SubscriberStatus`. -/
inductive SubscriberStatus where
  | active
  | unsubscribed
  | pending_confirmation
  deriving DecidableEq, Repr

/-- `shared/models.Subscriber` (the fields the verified operations read). -/
structure Subscriber where
  email : String
  status : SubscriberStatus
  confirmation_token : Option String
  unsubscribe_token : Option String
  deriving DecidableEq, Repr

/-- The subscriber DynamoDB table: a map from email (the primary key) to the
stored record. -/
def SubscriberTable := String → Option Subscriber

/-- `DynamoDBClient.get_subscriber(email)`. -/
def get_subscriber (table : SubscriberTable) (email : String) :
    Option Subscriber :=
  table email

/-- `DynamoDBClient.update_subscriber_status(email, status)`: a conditional
update (`attribute_exists(email)`) that returns `false` without modifying the
table when no record exists, and otherwise rewrites the record's `status`. -/
def update_subscriber_status (table : SubscriberTable) (email : String)
    (status : SubscriberStatus) : SubscriberTable × Bool :=
  match table email with
  | none => (table, false)
  | some r =>
    (fun e => if e = email then some { r with status := status } else table e,
     true)

/-- `DynamoDBClient.confirm_subscriber(email, confirmation_token)`: fetch the
record; absent record or token mismatch returns `false` with no write;
otherwise delegate to `update_subscriber_status(email, ACTIVE)`. -/
def confirm_subscriber (table : SubscriberTable) (email : String)
    (confirmation_token : String) : SubscriberTable × Bool :=
  match get_subscriber table email with
  | none => (table, false)
  | some subscriber =>
    if subscriber.confirmation_token ≠ some confirmation_token then
      (table, false)
    else
      update_subscriber_status table email SubscriberStatus.active

/-- A sample pending subscriber record, used to exercise the table operations
on concrete inputs. -/
def sampleRec : Subscriber :=
  { email := "a@b.com"
    status := SubscriberStatus.pending_confirmation
    confirmation_token := some "tok"
    unsubscribe_token := some "u" }

/-- A one-record subscriber table holding `sampleRec`. -/
def sampleTable : SubscriberTable :=
  fun e => if e = "a@b.com" then some sampleRec else none

/-! ## `email_agent/subscriber_manager.py` -/

/-- `SubscriberManager.filter_valid_subscribers(subscribers)`: the loop skips
a record when its status is not `ACTIVE`, when its email is empty or lacks
`@`, or when its unsubscribe token is falsy (`None` or empty). -/
def filter_valid_subscribers : List Subscriber → List Subscriber
  | [] => []
  | s :: rest =>
    if s.status ≠ SubscriberStatus.active then
      filter_valid_subscribers rest
    else if s.email = "" ∨ s.email.toList.contains '@' = false then
      filter_valid_subscribers rest
    else if s.unsubscribe_token.getD "" = "" then
      filter_valid_subscribers rest
    else
      s :: filter_valid_subscribers rest

/-! ## `content_agent/bedrock_summarizer.py` -/

namespace BedrockSummarizer

/-- `BedrockSummarizer.MAX_ARTICLES_PER_CATEGORY = 25`. -/
def MAX_ARTICLES_PER_CATEGORY : Nat := 25

/-- `bedrock_summarizer.SummarizedContent`, generic in the article and
summary types. -/
structure SummarizedContent (σ : Type) where
  category : String
  overall_summary : String
  article_summaries : List σ
  total_articles : Nat
  deriving DecidableEq, Repr

/-- `BedrockSummarizer.summarize_articles(articles, category)`.

`summarizeOne` models `_summarize_single_article` (a `none` result covers
both a falsy return and a raised-and-logged exception, neither of which
appends a summary); `overall` models `_generate_overall_summary`.  The
returned Boolean is the truncation-warning trace: was the
`Limiting articles from ... to 25` warning logged? -/
def summarize_articles {α σ : Type} (summarizeOne : α → Option σ)
    (overall : List σ → String) (articles : List α) (category : String) :
    SummarizedContent σ × Bool :=
  if articles.isEmpty then
    ({ category := category
       overall_summary := "No new developments this week."
       article_summaries := []
       total_articles := 0 }, false)
  else
    let truncated : Bool := decide (articles.length > MAX_ARTICLES_PER_CATEGORY)
    let articles :=
      if truncated then articles.take MAX_ARTICLES_PER_CATEGORY else articles
    let article_summaries := articles.filterMap summarizeOne
    ({ category := category
       overall_summary := overall article_summaries
       article_summaries := article_summaries
       total_articles := article_summaries.length }, truncated)

end BedrockSummarizer

/-! ## `content_agent/content_gatherer.py` -/

/-- `content_gatherer.Article` (the fields categorization reads and writes). -/
structure Article where
  title : String
  description : String
  content : Option String
  category : Option String
  deriving DecidableEq, Repr

/-- Is `needle` a prefix of `hay`? -/
def charsStartWith : List Char → List Char → Bool
  | [], _ => true
  | _ :: _, [] => false
  | a :: as, b :: bs => a == b && charsStartWith as bs

/-- Python `needle in hay` substring containment on character lists. -/
def charsContain (needle : List Char) : List Char → Bool
  | [] => charsStartWith needle []
  | b :: bs => charsStartWith needle (b :: bs) || charsContain needle bs

/-- Python `str.lower()` (ASCII case folding, which covers every keyword the
repository configures). -/
def pyLower (s : String) : String :=
  String.mk (s.toList.map Char.toLower)

/-- The text `f"{article.title} {article.description} {article.content or ''}".lower()`. -/
def categorizationText (a : Article) : String :=
  pyLower (a.title ++ " " ++ a.description ++ " " ++ a.content.getD "")

/-- Python `keyword in text` over strings. -/
def keywordIn (keyword text : String) : Bool :=
  charsContain keyword.toList text.toList

/-- `ContentGatherer._categorize_articles(articles)`: keep an article tagged
`alzheimers` when any Alzheimer's keyword occurs in its lower-cased text,
else tagged `parkinsons` when any Parkinson's keyword occurs, else drop it. -/
def categorize_articles (alzheimers_keywords parkinsons_keywords : List String) :
    List Article → List Article
  | [] => []
  | a :: rest =>
    let text := categorizationText a
    let alzheimers_match := alzheimers_keywords.any (fun k => keywordIn k text)
    let parkinsons_match := parkinsons_keywords.any (fun k => keywordIn k text)
    let tail := categorize_articles alzheimers_keywords parkinsons_keywords rest
    if alzheimers_match then { a with category := some "alzheimers" } :: tail
    else if parkinsons_match then { a with category := some "parkinsons" } :: tail
    else tail

/-! ## Helper lemmas -/

theorem send_batch_loop_counts {α : Type} (sendOk : α → Bool) :
    ∀ (l : List α) (sent s f sk : Nat),
      (EmailSender.send_batch_loop sendOk l sent s f sk).2.1 +
        (EmailSender.send_batch_loop sendOk l sent s f sk).2.2.1 +
        (EmailSender.send_batch_loop sendOk l sent s f sk).2.2.2 =
      s + f + sk + l.length := by
  intro l
  induction l with
  | nil => intro sent s f sk; simp [EmailSender.send_batch_loop]
  | cons x rest ih =>
    intro sent s f sk
    simp only [EmailSender.send_batch_loop]
    split
    · simp only [List.length_cons]
      omega
    · split
      · rw [ih]
        simp only [List.length_cons]
        omega
      · rw [ih]
        simp only [List.length_cons]
        omega

theorem send_batch_loop_skipped_mono {α : Type} (sendOk : α → Bool) :
    ∀ (l : List α) (sent s f sk : Nat),
      sk ≤ (EmailSender.send_batch_loop sendOk l sent s f sk).2.2.2 := by
  intro l
  induction l with
  | nil => intro sent s f sk; simp [EmailSender.send_batch_loop]
  | cons x rest ih =>
    intro sent s f sk
    simp only [EmailSender.send_batch_loop]
    split
    · dsimp only
      omega
    · split
      · exact ih ..
      · exact ih ..

theorem pySliceTo_length_le {α : Type} (xs : List α) (r : Int) :
    (EmailSender.pySliceTo xs r).length ≤ xs.length := by
  unfold EmailSender.pySliceTo
  split <;> simp [List.length_take]

theorem pySliceTo_length_le_bound {α : Type} (xs : List α) (r : Int) (h : 0 ≤ r) :
    ((EmailSender.pySliceTo xs r).length : Int) ≤ r := by
  unfold EmailSender.pySliceTo
  rw [if_pos h]
  simp only [List.length_take]
  omega

theorem send_batch_components {α : Type} (sendOk : α → Bool)
    (n : Nat) (subs : List α) :
    ∃ subs0 : List α,
      subs0.length ≤ subs.length ∧
      (EmailSender.check_sending_limits n subs.length = true → subs0 = subs) ∧
      (EmailSender.check_sending_limits n subs.length = false →
        subs0 = EmailSender.pySliceTo subs ((200 : Int) - n)) ∧
      (EmailSender.send_batch sendOk n subs).1.total = subs.length ∧
      (EmailSender.send_batch sendOk n subs).1.successful =
        (EmailSender.send_batch_loop sendOk subs0 n 0 0 0).2.1 ∧
      (EmailSender.send_batch sendOk n subs).1.failed =
        (EmailSender.send_batch_loop sendOk subs0 n 0 0 0).2.2.1 ∧
      (EmailSender.send_batch sendOk n subs).1.skipped =
        (subs.length - subs0.length) +
          (EmailSender.send_batch_loop sendOk subs0 n 0 0 0).2.2.2 := by
  unfold EmailSender.send_batch
  by_cases hc : EmailSender.check_sending_limits n subs.length
  · refine ⟨subs, le_refl _, fun _ => rfl, fun h => absurd hc (by simp [h]), ?_⟩
    simp [hc]
  · refine ⟨EmailSender.pySliceTo subs ((200 : Int) - n),
      pySliceTo_length_le subs _, fun h => absurd h (by simp_all),
      fun _ => rfl, ?_⟩
    simp only [Bool.not_eq_true] at hc
    simp [hc, EmailSender.SES_DAILY_LIMIT]

theorem natDigitsFuel_succ (fuel n : Nat) :
    natDigitsFuel (fuel + 1) n =
      if n < 10 then [digitChar n]
      else natDigitsFuel fuel (n / 10) ++ [digitChar (n % 10)] := rfl

theorem natDigitsFuel_congr (n : Nat) :
    ∀ f g : Nat, n < f → n < g → natDigitsFuel f n = natDigitsFuel g n := by
  induction n using Nat.strong_induction_on with
  | _ n ih =>
    intro f g hf hg
    cases f with
    | zero => omega
    | succ f =>
      cases g with
      | zero => omega
      | succ g =>
        rw [natDigitsFuel_succ, natDigitsFuel_succ]
        by_cases h : n < 10
        · rw [if_pos h, if_pos h]
        · rw [if_neg h, if_neg h,
            ih (n / 10) (by omega) f g (by omega) (by omega)]

theorem natDigits_small {n : Nat} (h : n < 10) :
    natDigits n = [digitChar n] := by
  unfold natDigits
  rw [natDigitsFuel_succ, if_pos h]

theorem natDigits_step {n : Nat} (h : 10 ≤ n) :
    natDigits n = natDigits (n / 10) ++ [digitChar (n % 10)] := by
  unfold natDigits
  rw [natDigitsFuel_succ, if_neg (by omega),
    natDigitsFuel_congr (n / 10) n (n / 10 + 1) (by omega) (by omega)]

theorem isDigitChar_digitChar {n : Nat} (h : n < 10) :
    isDigitChar (digitChar n) = true := by
  interval_cases n <;> decide

theorem natDigits_all (n : Nat) : (natDigits n).all isDigitChar = true := by
  induction n using Nat.strong_induction_on with
  | _ n ih =>
    by_cases h : n < 10
    · rw [natDigits_small h]
      simp [isDigitChar_digitChar h]
    · rw [natDigits_step (by omega), List.all_append]
      simp [ih (n / 10) (by omega),
        isDigitChar_digitChar (show n % 10 < 10 by omega)]

theorem natDigits_length_one {n : Nat} (h : n < 10) :
    (natDigits n).length = 1 := by
  rw [natDigits_small h]
  rfl

theorem natDigits_length_two {n : Nat} (h1 : 10 ≤ n) (h2 : n ≤ 99) :
    (natDigits n).length = 2 := by
  rw [natDigits_step h1]
  simp [natDigits_length_one (show n / 10 < 10 by omega)]

theorem natDigits_length_three {n : Nat} (h1 : 100 ≤ n) (h2 : n ≤ 999) :
    (natDigits n).length = 3 := by
  rw [natDigits_step (by omega)]
  simp [natDigits_length_two (show 10 ≤ n / 10 by omega)
    (show n / 10 ≤ 99 by omega)]

theorem natDigits_length_four {n : Nat} (h1 : 1000 ≤ n) (h2 : n ≤ 9999) :
    (natDigits n).length = 4 := by
  rw [natDigits_step (by omega)]
  simp [natDigits_length_three (show 100 ≤ n / 10 by omega)
    (show n / 10 ≤ 999 by omega)]

theorem daysInYear_bounds (y : Int) :
    365 ≤ daysInYear y ∧ daysInYear y ≤ 366 := by
  unfold daysInYear
  split <;> omega

theorem daysBeforeMonth_one (y : Int) : daysBeforeMonth y 1 = 0 := by
  simp [daysBeforeMonth, daysBeforeMonthBase]

theorem ymd2ord_diff (y m d : Int) :
    ymd2ord y m d - ymd2ord y 1 1 = daysBeforeMonth y m + d - 1 := by
  unfold ymd2ord
  rw [daysBeforeMonth_one]
  ring

theorem dayOfYear_bounds (y m d : Int) (h : validDate y m d) :
    0 ≤ daysBeforeMonth y m + d - 1 ∧
      daysBeforeMonth y m + d - 1 ≤ daysInYear y - 1 := by
  obtain ⟨h1, h2, h3, h4⟩ := h
  interval_cases m <;>
    cases hL : isLeapYear y <;>
    simp only [daysInMonth, daysBeforeMonth, daysBeforeMonthBase, daysInYear,
      hL, if_true, if_false] at h4 ⊢ <;>
    norm_num at h4 ⊢ <;>
    omega

theorem jan1_diff (y : Int) :
    ymd2ord y 1 1 - ymd2ord (y - 1) 1 1 = daysInYear (y - 1) := by
  unfold ymd2ord daysBeforeYear daysInYear isLeapYear
  rw [daysBeforeMonth_one, daysBeforeMonth_one]
  simp only [Bool.and_eq_true, Bool.or_eq_true, beq_iff_eq, bne_iff_ne]
  split_ifs with h <;> omega

theorem isoweek1monday_bounds (y : Int) :
    ymd2ord y 1 1 - 3 ≤ isoweek1monday y ∧
      isoweek1monday y ≤ ymd2ord y 1 1 + 3 := by
  simp only [isoweek1monday]
  split_ifs with h <;> omega

theorem isocalendar_bounds (y m d : Int) (h : validDate y m d) :
    ∃ yr wk : Int, isocalendar y m d = (yr, wk) ∧
      y - 1 ≤ yr ∧ yr ≤ y + 1 ∧ 1 ≤ wk ∧ wk ≤ 99 := by
  have hw1 := isoweek1monday_bounds y
  have hw1' := isoweek1monday_bounds (y - 1)
  have hdiff := jan1_diff y
  have hdy := daysInYear_bounds (y - 1)
  have hdy2 := daysInYear_bounds y
  have hord := ymd2ord_diff y m d
  have hmb := dayOfYear_bounds y m d h
  simp only [isocalendar]
  split_ifs with h1 h2
  · exact ⟨y - 1, (ymd2ord y m d - isoweek1monday (y - 1)) / 7 + 1, rfl,
      by omega, by omega, by omega, by omega⟩
  · exact ⟨y + 1, 1, rfl, by omega, by omega, by omega, by omega⟩
  · exact ⟨y, (ymd2ord y m d - isoweek1monday y) / 7 + 1, rfl,
      by omega, by omega, by omega, by omega⟩

theorem weekIdPattern_append (ys ws : List Char) (s : String)
    (h : s.toList = ys ++ ['-', 'w', 'e', 'e', 'k', '-'] ++ ws)
    (hy4 : ys.length = 4) (hyd : ys.all isDigitChar = true)
    (hw2 : ws.length = 2) (hwd : ws.all isDigitChar = true) :
    weekIdPattern s = true := by
  have len : (ys ++ ['-', 'w', 'e', 'e', 'k', '-'] ++ ws).length = 12 := by
    simp [hy4, hw2]
  have t4 : (ys ++ ['-', 'w', 'e', 'e', 'k', '-'] ++ ws).take 4 = ys := by
    rw [List.append_assoc]
    exact List.take_left' hy4
  have d4 : (ys ++ ['-', 'w', 'e', 'e', 'k', '-'] ++ ws).drop 4 =
      ['-', 'w', 'e', 'e', 'k', '-'] ++ ws := by
    rw [List.append_assoc]
    exact List.drop_left' hy4
  have d10 : (ys ++ ['-', 'w', 'e', 'e', 'k', '-'] ++ ws).drop 10 = ws :=
    List.drop_left' (by simp [hy4])
  simp only [weekIdPattern, h, t4, d4, d10, len]
  rw [List.take_left'
    (show (['-', 'w', 'e', 'e', 'k', '-'] : List Char).length = 6 from rfl)]
  simp [hyd, hwd]

/-! ## Claim theorems -/

/-- Claim C10: for every subscriber list, every send-outcome oracle and every
initial daily counter, `send_batch` accounts for each subscriber exactly once:
`successful + failed + skipped = total`. -/
theorem C10_send_batch_accounting (α : Type) (sendOk : α → Bool)
    (n : Nat) (subs : List α) :
    (EmailSender.send_batch sendOk n subs).1.successful +
      (EmailSender.send_batch sendOk n subs).1.failed +
      (EmailSender.send_batch sendOk n subs).1.skipped =
    (EmailSender.send_batch sendOk n subs).1.total := by
  obtain ⟨subs0, hlen, _, _, htot, hs, hf, hsk⟩ :=
    send_batch_components sendOk n subs
  have hcount := send_batch_loop_counts sendOk subs0 n 0 0 0
  rw [htot, hs, hf, hsk]
  omega

/-- Claim C3: `check_sending_limits(batch)` is true exactly when
`emails_sent_today + batch ≤ 200`; a `send_batch` starting from a counter
`n ≤ 200` attempts at most `200 − n` sends and marks every subscriber beyond
that quota skipped; concretely, with `emails_sent_today = 195` and a batch of
10 all-deliverable subscribers, exactly 5 are sent and 5 are skipped. -/
theorem C3_sending_limits :
    (∀ n b : Nat, EmailSender.check_sending_limits n b = true ↔ n + b ≤ 200) ∧
    (∀ (α : Type) (sendOk : α → Bool) (n : Nat) (subs : List α), n ≤ 200 →
      (EmailSender.send_batch sendOk n subs).1.successful +
          (EmailSender.send_batch sendOk n subs).1.failed ≤ 200 - n ∧
      subs.length - (200 - n) ≤ (EmailSender.send_batch sendOk n subs).1.skipped) ∧
    (EmailSender.send_batch (fun _ : Unit => true) 195 (List.replicate 10 ())).1 =
      { total := 10, successful := 5, failed := 0, skipped := 5 } := by
  refine ⟨?_, ?_, by decide⟩
  · intro n b
    unfold EmailSender.check_sending_limits EmailSender.SES_DAILY_LIMIT
    split
    · next h => simp only [Bool.false_eq_true, false_iff]; omega
    · next h => simp only [true_iff]; omega
  · intro α sendOk n subs hn
    obtain ⟨subs0, hlen, hkeep, htrunc, htot, hs, hf, hsk⟩ :=
      send_batch_components sendOk n subs
    have hcount := send_batch_loop_counts sendOk subs0 n 0 0 0
    have hmono := send_batch_loop_skipped_mono sendOk subs0 n 0 0 0
    have hquota : subs0.length ≤ 200 - n := by
      by_cases hc : EmailSender.check_sending_limits n subs.length
      · have : n + subs.length ≤ 200 := by
          revert hc
          unfold EmailSender.check_sending_limits EmailSender.SES_DAILY_LIMIT
          split
          · intro hc
            exact absurd hc (by simp)
          · intro _
            omega
        rw [hkeep hc]
        omega
      · rw [htrunc (by simpa using hc)]
        have hb := pySliceTo_length_le_bound subs ((200 : Int) - n) (by omega)
        omega
    constructor
    · rw [hs, hf]
      omega
    · rw [hsk]
      omega

/-- Claim C2: in the Content Agent entry point, an estimated cost above
\$0.50 aborts with a 400 response carrying the estimate and the threshold,
without invoking the summarizer or the processor; an estimate in
(\$0.10, \$0.50] only logs the high-cost warning and the run proceeds. -/
theorem C2_cost_guard (c : ℚ) :
    (c > MAX_COST_THRESHOLD →
      (lambda_handler_costGate c).response.statusCode = 400 ∧
      (lambda_handler_costGate c).response.estimated_cost_usd = some c ∧
      (lambda_handler_costGate c).response.max_threshold_usd =
        some MAX_COST_THRESHOLD ∧
      (lambda_handler_costGate c).summarizerCalled = false ∧
      (lambda_handler_costGate c).processorCalled = false) ∧
    (1 / 10 < c → c ≤ MAX_COST_THRESHOLD →
      (lambda_handler_costGate c).highCostWarning = true ∧
      (lambda_handler_costGate c).response.statusCode = 200 ∧
      (lambda_handler_costGate c).summarizerCalled = true ∧
      (lambda_handler_costGate c).processorCalled = true) := by
  constructor
  · intro h
    unfold lambda_handler_costGate
    rw [if_pos h]
    exact ⟨rfl, rfl, rfl, rfl, rfl⟩
  · intro h1 h2
    unfold lambda_handler_costGate
    rw [if_neg (not_lt.mpr h2)]
    exact ⟨decide_eq_true h1, rfl, rfl, rfl⟩

/-- Witness for C2 at the spec's concrete estimates 0.75 and 0.20 USD. -/
theorem C2_cost_guard_witness :
    ((lambda_handler_costGate (3 / 4)).response.statusCode = 400 ∧
      (lambda_handler_costGate (3 / 4)).summarizerCalled = false ∧
      (lambda_handler_costGate (3 / 4)).processorCalled = false) ∧
    ((lambda_handler_costGate (1 / 5)).highCostWarning = true ∧
      (lambda_handler_costGate (1 / 5)).response.statusCode = 200) := by
  have h1 := (C2_cost_guard (3 / 4)).1 (by norm_num [MAX_COST_THRESHOLD])
  have h2 := (C2_cost_guard (1 / 5)).2 (by norm_num)
    (by norm_num [MAX_COST_THRESHOLD])
  exact ⟨⟨h1.1, h1.2.2.2.1, h1.2.2.2.2⟩, h2.1, h2.2.1⟩

/-- Claim C1 (code bug): the week-id round trip fails.  For
`D = 2019-01-01` (a Tuesday, ISO week 1 of 2019, whose ISO week runs
2018-12-31 .. 2019-01-06), `get_week_id_for_date` yields `"2019-week-01"`,
but `get_week_start_end("2019-week-01")` returns the interval
2019-01-07 00:00:00 .. 2019-01-13 23:59:59, which does not contain `D`:
the code's "first Monday" rule is off by one week whenever January 1 of the
id's year is not a Monday. -/
theorem C1_week_roundtrip_code_bug :
    get_week_id_for_date 2019 1 1 = "2019-week-01" ∧
    get_week_start_end "2019-week-01" =
      some ((ymd2ord 2019 1 7, 0), (ymd2ord 2019 1 13, 86399)) ∧
    validDate 2019 1 1 ∧
    isocalendar 2019 1 1 = (2019, 1) ∧
    isoweek1monday 2019 = ymd2ord 2018 12 31 ∧
    dtContains (ymd2ord 2019 1 7, 0) (ymd2ord 2019 1 13, 86399)
      (ymd2ord 2019 1 1, 0) = false := by
  decide

/-- Claim C9: `ContentProcessor.generate_week_id` computes exactly the shared
utility `get_week_id_for_date`, and with no argument applies it to the
current UTC date (passed explicitly as `now`). -/
theorem C9_generate_week_id_refines (now : Int × Int × Int) (y m d : Int) :
    ContentProcessor.generate_week_id now (some (y, m, d)) =
      get_week_id_for_date y m d ∧
    ContentProcessor.generate_week_id now none =
      get_week_id_for_date now.1 now.2.1 now.2.2 :=
  ⟨rfl, rfl⟩

/-- Claim C4: `confirm_subscriber` returns `false` and leaves the table (in
particular the record's status) unchanged when the record is absent or the
supplied token differs from the stored `confirmation_token`; on an exact
token match it flips the status to `active` and returns `true`. -/
theorem C4_confirm_subscriber (table : SubscriberTable) (email token : String) :
    (get_subscriber table email = none →
      confirm_subscriber table email token = (table, false)) ∧
    (∀ r, get_subscriber table email = some r →
      r.confirmation_token ≠ some token →
      confirm_subscriber table email token = (table, false) ∧
      ((confirm_subscriber table email token).1 email).map Subscriber.status =
        some r.status) ∧
    (∀ r, get_subscriber table email = some r →
      r.confirmation_token = some token →
      (confirm_subscriber table email token).2 = true ∧
      ((confirm_subscriber table email token).1 email).map Subscriber.status =
        some SubscriberStatus.active) := by
  refine ⟨?_, ?_, ?_⟩
  · intro h
    unfold confirm_subscriber
    rw [h]
  · intro r hr hne
    unfold confirm_subscriber
    rw [hr]
    dsimp only
    rw [if_pos hne]
    refine ⟨rfl, ?_⟩
    have h : table email = some r := hr
    dsimp only
    rw [h]
    rfl
  · intro r hr heq
    unfold confirm_subscriber
    rw [hr]
    dsimp only
    rw [if_neg (by simp [heq])]
    unfold update_subscriber_status
    rw [show table email = some r from hr]
    exact ⟨rfl, by simp⟩

/-- Witness for C4 on `sampleTable`: a wrong token is rejected and the record
stays `pending_confirmation`; the right token activates the record. -/
theorem C4_confirm_subscriber_witness :
    confirm_subscriber sampleTable "a@b.com" "wrong" = (sampleTable, false) ∧
    ((confirm_subscriber sampleTable "a@b.com" "wrong").1 "a@b.com").map
      Subscriber.status = some SubscriberStatus.pending_confirmation ∧
    (confirm_subscriber sampleTable "a@b.com" "tok").2 = true ∧
    ((confirm_subscriber sampleTable "a@b.com" "tok").1 "a@b.com").map
      Subscriber.status = some SubscriberStatus.active := by
  have h2 := (C4_confirm_subscriber sampleTable "a@b.com" "wrong").2.1 sampleRec
    (by decide) (by decide)
  have h3 := (C4_confirm_subscriber sampleTable "a@b.com" "tok").2.2 sampleRec
    (by decide) (by decide)
  exact ⟨h2.1, h2.2, h3.1, h3.2⟩

/-- Claim C5: the summarizer submits exactly the first 25 articles (in input
order) of an over-long category list to per-article summarization, logging
the truncation warning, and processes a list of at most 25 in full with no
warning. -/
theorem C5_article_cap (α σ : Type) (f : α → Option σ) (g : List σ → String)
    (l : List α) (c : String) :
    (l.length > BedrockSummarizer.MAX_ARTICLES_PER_CATEGORY →
      (BedrockSummarizer.summarize_articles f g l c).1.article_summaries =
        (l.take BedrockSummarizer.MAX_ARTICLES_PER_CATEGORY).filterMap f ∧
      (BedrockSummarizer.summarize_articles f g l c).2 = true) ∧
    (l.length ≤ BedrockSummarizer.MAX_ARTICLES_PER_CATEGORY →
      (BedrockSummarizer.summarize_articles f g l c).1.article_summaries =
        l.filterMap f ∧
      (BedrockSummarizer.summarize_articles f g l c).2 = false) := by
  constructor
  · intro h
    have hne : l.isEmpty = false := by
      cases l
      · simp [BedrockSummarizer.MAX_ARTICLES_PER_CATEGORY] at h
      · simp
    simp [BedrockSummarizer.summarize_articles, hne, h]
  · intro h
    by_cases hne : l.isEmpty
    · have hl : l = [] := by
        cases l
        · rfl
        · simp at hne
      subst hl
      simp [BedrockSummarizer.summarize_articles]
    · have h25 : ¬ (l.length > BedrockSummarizer.MAX_ARTICLES_PER_CATEGORY) := by
        omega
      simp [BedrockSummarizer.summarize_articles, hne, h25]

/-- Witness for C5 with 30 identity-summarized articles: exactly the first 25
are processed and the warning fires. -/
theorem C5_article_cap_witness :
    (BedrockSummarizer.summarize_articles (fun n : Nat => some n)
        (fun _ => "overall") (List.range 30) "alzheimers").1.article_summaries =
      ((List.range 30).take 25).filterMap some ∧
    (BedrockSummarizer.summarize_articles (fun n : Nat => some n)
        (fun _ => "overall") (List.range 30) "alzheimers").2 = true := by
  have h := (C5_article_cap Nat Nat (fun n => some n) (fun _ => "overall")
    (List.range 30) "alzheimers").1 (by decide)
  exact ⟨h.1, h.2⟩

/-- Claim C6: per-article categorization over the lower-cased concatenation
of title, description and content tags the article `alzheimers` whenever some
Alzheimer's keyword occurs (regardless of Parkinson's matches), tags it
`parkinsons` when only a Parkinson's keyword occurs, and drops it when
neither occurs. -/
theorem C6_categorization_precedence
    (alzheimers_keywords parkinsons_keywords : List String)
    (a : Article) (rest : List Article) :
    (alzheimers_keywords.any
        (fun k => keywordIn k (categorizationText a)) = true →
      categorize_articles alzheimers_keywords parkinsons_keywords (a :: rest) =
        { a with category := some "alzheimers" } ::
          categorize_articles alzheimers_keywords parkinsons_keywords rest) ∧
    (alzheimers_keywords.any
        (fun k => keywordIn k (categorizationText a)) = false →
      parkinsons_keywords.any
        (fun k => keywordIn k (categorizationText a)) = true →
      categorize_articles alzheimers_keywords parkinsons_keywords (a :: rest) =
        { a with category := some "parkinsons" } ::
          categorize_articles alzheimers_keywords parkinsons_keywords rest) ∧
    (alzheimers_keywords.any
        (fun k => keywordIn k (categorizationText a)) = false →
      parkinsons_keywords.any
        (fun k => keywordIn k (categorizationText a)) = false →
      categorize_articles alzheimers_keywords parkinsons_keywords (a :: rest) =
        categorize_articles alzheimers_keywords parkinsons_keywords rest) := by
  refine ⟨?_, ?_, ?_⟩
  · intro ha
    simp only [categorize_articles]
    rw [ha]
    simp
  · intro ha hp
    simp only [categorize_articles]
    rw [ha, hp]
    simp
  · intro ha hp
    simp only [categorize_articles]
    rw [ha, hp]
    simp

/-- Witness for C6: with the Content Agent's keyword lists, a text containing
both "dementia" and "tremor" is categorized `alzheimers`. -/
theorem C6_categorization_precedence_witness :
    categorize_articles
        ["alzheimer", "alzheimers", "dementia", "cognitive decline",
         "memory loss", "beta amyloid", "tau protein", "neurodegeneration"]
        ["parkinson's disease", "parkinson's", "parkinsons disease",
         "dopamine", "motor symptoms", "tremor", "bradykinesia",
         "rigidity", "lewy body", "substantia nigra"]
        [{ title := "Dementia study finds tremor link"
           description := "d", content := none, category := none }] =
      [{ title := "Dementia study finds tremor link"
         description := "d", content := none,
         category := some "alzheimers" }] := by
  have h := (C6_categorization_precedence
    ["alzheimer", "alzheimers", "dementia", "cognitive decline",
     "memory loss", "beta amyloid", "tau protein", "neurodegeneration"]
    ["parkinson's disease", "parkinson's", "parkinsons disease",
     "dopamine", "motor symptoms", "tremor", "bradykinesia",
     "rigidity", "lewy body", "substantia nigra"]
    { title := "Dementia study finds tremor link"
      description := "d", content := none, category := none } []).1 (by decide)
  simpa [categorize_articles] using h

/-- Claim C7: `filter_valid_subscribers` keeps a record exactly when its
status is `active`, its email contains `@`, and its unsubscribe token is
non-empty. -/
theorem C7_filter_valid (l : List Subscriber) (s : Subscriber) :
    s ∈ filter_valid_subscribers l ↔
      s ∈ l ∧ s.status = SubscriberStatus.active ∧
        s.email.toList.contains '@' = true ∧
        s.unsubscribe_token.getD "" ≠ "" := by
  induction l with
  | nil => simp [filter_valid_subscribers]
  | cons x rest ih =>
    simp only [filter_valid_subscribers]
    split_ifs with h1 h2 h3
    · rw [ih, List.mem_cons]
      constructor
      · rintro ⟨hm, hp⟩
        exact ⟨Or.inr hm, hp⟩
      · rintro ⟨hm | hm, hp⟩
        · cases hm
          exact absurd hp.1 h1
        · exact ⟨hm, hp⟩
    · rw [ih, List.mem_cons]
      constructor
      · rintro ⟨hm, hp⟩
        exact ⟨Or.inr hm, hp⟩
      · rintro ⟨hm | hm, hp⟩
        · cases hm
          rcases h2 with he | hc
          · rw [he] at hp
            simp at hp
          · rw [hc] at hp
            simp at hp
        · exact ⟨hm, hp⟩
    · rw [ih, List.mem_cons]
      constructor
      · rintro ⟨hm, hp⟩
        exact ⟨Or.inr hm, hp⟩
      · rintro ⟨hm | hm, hp⟩
        · cases hm
          exact absurd h3 hp.2.2
        · exact ⟨hm, hp⟩
    · rw [List.mem_cons, ih, List.mem_cons]
      constructor
      · rintro (rfl | ⟨hm, hp⟩)
        · refine ⟨Or.inl rfl, not_not.mp h1, ?_, h3⟩
          cases hb : s.email.toList.contains '@'
          · exact absurd (Or.inr hb) h2
          · rfl
        · exact ⟨Or.inr hm, hp⟩
      · rintro ⟨hm | hm, hp⟩
        · exact Or.inl hm
        · exact Or.inr ⟨hm, hp⟩

/-- Witness for C7: an `active` record with an empty unsubscribe token and a
`pending_confirmation` record with both tokens are both excluded;
a fully valid record is kept. -/
theorem C7_filter_valid_witness :
    ({ email := "x@y.com", status := SubscriberStatus.active,
       confirmation_token := none,
       unsubscribe_token := some "" : Subscriber} ∉
      filter_valid_subscribers
        [{ email := "x@y.com", status := SubscriberStatus.active,
           confirmation_token := none, unsubscribe_token := some "" }]) ∧
    ({ email := "x@y.com", status := SubscriberStatus.pending_confirmation,
       confirmation_token := some "c",
       unsubscribe_token := some "u" : Subscriber} ∉
      filter_valid_subscribers
        [{ email := "x@y.com", status := SubscriberStatus.pending_confirmation,
           confirmation_token := some "c", unsubscribe_token := some "u" }]) ∧
    ({ email := "x@y.com", status := SubscriberStatus.active,
       confirmation_token := none,
       unsubscribe_token := some "u" : Subscriber} ∈
      filter_valid_subscribers
        [{ email := "x@y.com", status := SubscriberStatus.active,
           confirmation_token := none, unsubscribe_token := some "u" }]) := by
  refine ⟨fun h => ?_, fun h => ?_, ?_⟩
  · have := (C7_filter_valid _ _).mp h
    revert this
    decide
  · have := (C7_filter_valid _ _).mp h
    revert this
    decide
  · exact (C7_filter_valid _ _).mpr (by decide)

/-- Claim C8 counterexample: `get_week_id_for_date` does not always match
`^\d{4}-week-\d{2}$` — for the valid date 0999-01-04 (ISO week 1 of ISO year
999) it returns `"999-week-01"`, whose year part has only three digits. -/
theorem C8_pattern_counterexample :
    validDate 999 1 4 ∧
    get_week_id_for_date 999 1 4 = "999-week-01" ∧
    weekIdPattern (get_week_id_for_date 999 1 4) = false := by
  decide

/-- Claim C8 (amended): for every valid date whose year lies in 1001..9998
(so that the ISO year, which can differ from the calendar year by one, still
has four decimal digits), `get_week_id_for_date` returns a string matching
`^\d{4}-week-\d{2}$`. -/
theorem C8_week_id_format_amended (y m d : Int) (hy1 : 1001 ≤ y)
    (hy2 : y ≤ 9998) (h : validDate y m d) :
    weekIdPattern (get_week_id_for_date y m d) = true := by
  obtain ⟨yr, wk, hiso, hb1, hb2, hb3, hb4⟩ := isocalendar_bounds y m d h
  have hrepr : get_week_id_for_date y m d = intRepr yr ++ "-week-" ++ pad2 wk := by
    simp only [get_week_id_for_date, hiso]
  have hyr : intRepr yr = natRepr yr.toNat := by
    unfold intRepr
    rw [if_neg (by omega)]
  have hn1 : 1000 ≤ yr.toNat := by omega
  have hn2 : yr.toNat ≤ 9999 := by omega
  rw [hrepr, hyr]
  by_cases hwk : wk < 10
  · have hpad : pad2 wk = "0" ++ natRepr wk.toNat := by
      unfold pad2
      rw [if_pos ⟨by omega, hwk⟩]
    rw [hpad]
    apply weekIdPattern_append (natDigits yr.toNat)
      ('0' :: natDigits wk.toNat)
    · show (natRepr yr.toNat ++ "-week-" ++ ("0" ++ natRepr wk.toNat)).data = _
      simp only [String.data_append]
      rfl
    · exact natDigits_length_four hn1 hn2
    · exact natDigits_all yr.toNat
    · simp [natDigits_length_one (show wk.toNat < 10 by omega)]
    · simp [natDigits_all wk.toNat]
      decide
  · have hpad : pad2 wk = natRepr wk.toNat := by
      unfold pad2 intRepr
      rw [if_neg (by omega), if_neg (by omega)]
    rw [hpad]
    apply weekIdPattern_append (natDigits yr.toNat) (natDigits wk.toNat)
    · show (natRepr yr.toNat ++ "-week-" ++ natRepr wk.toNat).data = _
      simp only [String.data_append]
      rfl
    · exact natDigits_length_four hn1 hn2
    · exact natDigits_all yr.toNat
    · exact natDigits_length_two (by omega) (by omega)
    · exact natDigits_all wk.toNat

/-- Witness for the amended C8 at the spec's example date 2024-01-01 (the
first Monday of ISO week 1, 2024). -/
theorem C8_week_id_format_amended_witness :
    validDate 2024 1 1 ∧
    get_week_id_for_date 2024 1 1 = "2024-week-01" ∧
    weekIdPattern (get_week_id_for_date 2024 1 1) = true :=
  ⟨by decide, by decide,
    C8_week_id_format_amended 2024 1 1 (by norm_num) (by norm_num) (by decide)⟩

/-- Witness for C3's bounded part at `n = 195` with ten subscribers. -/
theorem C3_sending_limits_witness :
    (EmailSender.check_sending_limits 195 10 = true ↔ 195 + 10 ≤ 200) ∧
    (EmailSender.send_batch (fun _ : Unit => true) 195
        (List.replicate 10 ())).1.successful +
      (EmailSender.send_batch (fun _ : Unit => true) 195
        (List.replicate 10 ())).1.failed ≤ 200 - 195 := by
  refine ⟨C3_sending_limits.1 195 10, ?_⟩
  exact (C3_sending_limits.2.1 Unit (fun _ => true) 195 (List.replicate 10 ())
    (by omega)).1

end Alkinson
